/-
  Verification of the `pipe_tasks` repository glue code.

  The repository consists of three Python modules:
    * src/python/lsst/pipe/tasks/injectFakeSources.py
    * src/python/lsst/pipe/tasks/mocks/mockCoadd.py
    * src/examples/measurePsfTask.py

  All heavy lifting is delegated to an external framework, so the shallow
  embedding below models (a) Python name-resolution / import behaviour for
  the visibly broken modules, and (b) the pure wiring logic (configuration
  field updates, iteration order, trace of delegated task invocations) of
  the remaining glue code.  External framework entities (exposures, source
  catalogs, PSFs, butlers) are abstract type parameters; external task
  behaviours are abstract function parameters.  Python floats are modelled
  as exact rationals.
-/
import Mathlib

namespace PyModel

/-- A Python runtime error raised during name resolution or parsing:
`nameError n` models `NameError: name n is not defined`, `attrError p`
models an `AttributeError` on the dotted module path `p`, and `parseError`
models a failure of the CPython parser (a "SyntaxError"). -/
inductive PyExc where
  | nameError (n : String) : PyExc
  | attrError (p : String) : PyExc
  | parseError : PyExc
  deriving DecidableEq, Repr

/-- A name environment: the list of identifiers bound in the enclosing
scopes (builtins, module globals, function locals). -/
abbrev NameEnv := List String

/-- An identifier resolves when some enclosing scope binds it. -/
def resolves (env : NameEnv) (n : String) : Bool :=
  List.contains env n

/-- The Python 3 builtin names referenced by this repository.  Python 3
removed the Python 2 builtin `long`, so `long` is deliberately absent. -/
def py3Builtins : NameEnv :=
  ["str", "int", "float", "bool", "object", "range", "print", "len", "type"]

/-- Whitespace characters for trimming a source line. -/
def isWs (c : Char) : Bool :=
  c == ' ' || c == '\n' || c == '\t' || c == '\r'

/-- The last non-whitespace character of a source fragment, if any. -/
def lastNonWs (s : String) : Option Char :=
  (s.toList.reverse.dropWhile isWs).head?

/-- A `def` statement header is well formed only when its logical line ends
with a colon; otherwise the CPython parser rejects the whole module. -/
def defHeaderTerminated (s : String) : Bool :=
  lastNonWs s == some ':'

end PyModel

namespace InjectFakeSources

open PyModel

/-- The logical line of the `def` statement of
`InjectFakeSourcesTask.__init__` (src lines 81-82), exactly as written:
note the missing colon after the closing parenthesis. -/
def initDefHeader : String :=
  "def __init__(self, butler=None, astromRefObjLoader=None,\n                 psfRefObjLoader=None, photoRefObjLoader=None, **kwargs)"

/-- The `def` statement header of `InjectFakeSourcesConfig.setDefaults`
(src line 57). -/
def setDefaultsDefHeader : String :=
  "def setDefaults(self):"

/-- The `def` statement header of `InjectFakeSourcesTask.run`
(src line 120). -/
def runDefHeader : String :=
  "def run(self, dataRef):"

/-- Every `def` statement header appearing in injectFakeSources.py, in
source order. -/
def defHeaders : List String :=
  [setDefaultsDefHeader, initDefHeader, runDefHeader]

/-- The module parses only when every `def` header is terminated by a
colon (the only parse-relevant defect present in the file). -/
def moduleParses : Bool :=
  defHeaders.all defHeaderTerminated

/-- Importing injectFakeSources.py: on a parse failure CPython raises a
SyntaxError and binds nothing; otherwise the module would bind the two
`__all__` names. -/
def importModule : Except PyExc (List String) :=
  if moduleParses then
    Except.ok ["InjectFakeSourcesConfig", "InjectFakeSourcesTask"]
  else
    Except.error PyExc.parseError

/-- The names an import of the module actually binds. -/
def boundNames : List String :=
  match importModule with
  | Except.ok ns => ns
  | Except.error _ => []

/-- The module-level bindings of injectFakeSources.py, in the order the
statements at src lines 22-29 would execute: the three aliased imports,
the two `from` imports and `__all__`.  (`import lsst.pex.config as
pexConfig` binds only the alias `pexConfig`.) -/
def moduleEnv : NameEnv :=
  py3Builtins ++
    ["pexConfig", "pipeBase", "afwImage", "PositionGalSimFakesTask",
     "CalibrateTask", "__all__"]

/-- A statement of a class body: the attribute it binds and the free
(module- or builtin-scope) names its right-hand side reads, in evaluation
order. -/
structure ClassStmt where
  target : String
  freeNames : List String
  deriving Repr

/-- Execute a class body: statements run in order; the first free name
that no enclosing scope binds raises `NameError` and aborts the body. -/
def evalClassBody (env : NameEnv) : List ClassStmt → Except PyExc (List String)
  | [] => Except.ok []
  | s :: rest =>
    match s.freeNames.find? (fun n => !(resolves env n)) with
    | some n => Except.error (PyExc.nameError n)
    | none =>
      match evalClassBody env rest with
      | Except.ok bound => Except.ok (s.target :: bound)
      | Except.error e => Except.error e

/-- The class body of `InjectFakeSourcesConfig` (src lines 32-61), one
entry per statement with the free names each right-hand side reads:
`catalogFileName` reads `lsstConfig` and `str` (line 34), `maskPlaneName`
reads `lsst` and `str` (line 38), the two `ConfigurableField` statements
read `pexConfig` and their target task, and the `def setDefaults`
statement evaluates no free names at class-body time. -/
def injectFakeSourcesConfigBody : List ClassStmt :=
  [⟨"catalogFileName", ["lsstConfig", "str"]⟩,
   ⟨"maskPlaneName", ["lsst", "str"]⟩,
   ⟨"calibrate", ["pexConfig", "CalibrateTask"]⟩,
   ⟨"positionGalsimFakes", ["pexConfig", "PositionGalSimFakesTask"]⟩,
   ⟨"setDefaults", []⟩]

/-- A statement of a method body: the free non-local names it reads in
evaluation order, and the subtask it creates via `self.makeSubtask` once
all of its argument expressions have evaluated. -/
structure ExecStmt where
  freeNames : List String
  createsSubtask : Option String
  deriving Repr

/-- Execute a method body: statements run in order, each first resolving
its free names; the first unresolved name raises `NameError`, aborting
the body, and a statement's subtask is created only when the statement
completes.  Returns the subtasks created and the error, if any. -/
def execBody (env : NameEnv) : List ExecStmt → List String × Option PyExc
  | [] => ([], none)
  | s :: rest =>
    match s.freeNames.find? (fun n => !(resolves env n)) with
    | some n => ([], some (PyExc.nameError n))
    | none =>
      let (created, err) := execBody env rest
      (s.createsSubtask.toList ++ created, err)

/-- The scope visible inside `InjectFakeSourcesTask.__init__`: module
bindings (pretending the module had imported), the class names the module
would bind, and the method's own parameters. -/
def initEnv : NameEnv :=
  moduleEnv ++
    ["InjectFakeSourcesConfig", "InjectFakeSourcesTask",
     "self", "butler", "astromRefObjLoader", "psfRefObjLoader",
     "photoRefObjLoader", "kwargs"]

/-- The body of `InjectFakeSourcesTask.__init__` (src lines 103-117):
the base-class `__init__` call, the two mask-plane statements, the
`makeSubtask("calibrate", ...)` call — whose arguments read `butler` and
then `SourceTable` (line 113) before the subtask can be created — and the
`makeSubtask("positionGalSimFakes", ...)` call. -/
def initBody : List ExecStmt :=
  [⟨["pipeBase", "self", "kwargs"], none⟩,
   ⟨["afwImage", "self"], none⟩,
   ⟨["afwImage", "self"], none⟩,
   ⟨["self", "butler", "SourceTable", "astromRefObjLoader",
     "photoRefObjLoader"], some "calibrate"⟩,
   ⟨["self"], some "positionGalSimFakes"⟩]

/-- Constructing an `InjectFakeSourcesTask`: the constructor arguments
(whose values are irrelevant to name resolution — the parameter names are
bound no matter what is passed) and the resulting execution of the
`__init__` body. -/
def constructTask (_butler _astromRefObjLoader _psfRefObjLoader
    _photoRefObjLoader : Option Unit) : List String × Option PyExc :=
  execBody initEnv initBody

end InjectFakeSources

namespace MockCoadd

open PyModel

/-- A dotted-module-path environment: the module paths importable as
attributes of the root package (populated by the module's `import`
statements). -/
abbrev PathEnv := List String

/-- A dotted path resolves when the imports made it accessible. -/
def resolvesPath (paths : PathEnv) (p : String) : Bool :=
  List.contains paths p

/-- The module paths made accessible by the three `import` statements of
mockCoadd.py (src lines 23-25): `lsst.pex.config`, `lsst.afw.table` and
`lsst.pipe.base`, together with their parent packages.  Neither
`lsst.afw.geom`, `lsst.afw.image`, `lsst.meas.algorithms` nor any
`lsst.meas` package is ever imported. -/
def pathEnv : PathEnv :=
  ["lsst", "lsst.pex", "lsst.pex.config", "lsst.afw", "lsst.afw.table",
   "lsst.pipe", "lsst.pipe.base"]

/-- The module-level name bindings of mockCoadd.py: the root package name
`lsst` bound by the plain imports, and the six `from` imports
(src lines 26-31). -/
def moduleEnv : NameEnv :=
  py3Builtins ++
    ["lsst", "MakeSkyMapTask", "MakeCoaddTempExpTask", "AssembleCoaddTask",
     "MockObjectTask", "MockObservationTask", "MockSelectImagesTask"]

/-- A statement of a method body: the free names it reads, the dotted
module paths it dereferences, and the subtask it creates on completion. -/
structure MethodStmt where
  freeNames : List String
  freePaths : List String
  createsSubtask : Option String
  deriving Repr

/-- Execute a method body: statements run in order; the first unresolved
free name raises `NameError` and the first inaccessible dotted path raises
`AttributeError`, either aborting the body; a statement's subtask is
created only when the statement completes. -/
def execMethodBody (env : NameEnv) (paths : PathEnv) :
    List MethodStmt → List String × Option PyExc
  | [] => ([], none)
  | s :: rest =>
    match s.freeNames.find? (fun n => !(resolves env n)) with
    | some n => ([], some (PyExc.nameError n))
    | none =>
      match s.freePaths.find? (fun p => !(resolvesPath paths p)) with
      | some p => ([], some (PyExc.attrError p))
      | none =>
        let (created, err) := execMethodBody env paths rest
        (s.createsSubtask.toList ++ created, err)

/-- The scope visible inside `MockCoaddTask.__init__`: module bindings,
the two class names the module binds, and the method parameters. -/
def initEnv : NameEnv :=
  moduleEnv ++ ["MockCoaddConfig", "MockCoaddTask", "self", "kwds"]

/-- The body of `MockCoaddTask.__init__` (src lines 98-114): the
base-class `__init__` call, three `makeSubtask` calls, the schema
creation, then the four `addField` calls — of which the `objectId` and
`exposureId` fields pass `type=long` (src lines 104-106), reading the
free name `long`. -/
def initBody : List MethodStmt :=
  [⟨["lsst", "self", "kwds"], ["lsst.pipe.base"], none⟩,
   ⟨["self"], [], some "makeSkyMap"⟩,
   ⟨["self"], [], some "mockObject"⟩,
   ⟨["self"], [], some "mockObservation"⟩,
   ⟨["lsst", "self"], ["lsst.afw.table"], none⟩,
   ⟨["self", "long"], [], none⟩,
   ⟨["self", "long"], [], none⟩,
   ⟨["self"], [], none⟩,
   ⟨["self"], [], none⟩]

/-- Constructing a `MockCoaddTask` under Python 3: the keyword-argument
values are irrelevant to name resolution (the parameter name `kwds` is
bound no matter what is passed). -/
def constructMockCoaddTask (_kwds : Option Unit) : List String × Option PyExc :=
  execMethodBody initEnv pathEnv initBody

/-- An angle, stored in arcseconds.  Python floats are modelled as exact
rationals. -/
structure Angle where
  arcsec : ℚ
  deriving DecidableEq, Repr

/-- The external framework's arcsecond unit angle. -/
def arcsecondsUnit : Angle := ⟨1⟩

/-- Scalar multiple of an angle (`0.2*lsst.afw.geom.arcseconds`). -/
def Angle.scale (q : ℚ) (a : Angle) : Angle := ⟨q * a.arcsec⟩

/-- The angle's value in arcseconds (`Angle.asArcseconds`). -/
def Angle.asArcseconds (a : Angle) : ℚ := a.arcsec

/-- The angle's value in degrees (`Angle.asDegrees`); one degree is 3600
arcseconds. -/
def Angle.asDegrees (a : Angle) : ℚ := a.arcsec / 3600

/-- The fields of the nested `[discrete]` skymap configuration touched by
mockCoadd.py. -/
structure DiscreteSkyMapConfig where
  raList : List ℚ
  decList : List ℚ
  patchBorder : ℕ
  projection : String
  tractOverlap : ℚ
  patchInnerDimensions : List ℕ
  pixelScale : ℚ
  radiusList : List ℚ
  deriving Repr

/-- The `skyMap` registry field of the MakeSkyMap configuration: the
selected name and the nested `['discrete']` configuration. -/
structure SkyMapRegistry where
  name : String
  discrete : DiscreteSkyMapConfig
  deriving Repr

/-- The MakeSkyMap configuration, as far as mockCoadd.py touches it. -/
structure MakeSkyMapConfig where
  skyMap : SkyMapRegistry
  deriving Repr

/-- `MockCoaddConfig` (src lines 33-85): the `makeSkyMap` subtask
configuration and the three plain fields (the three `ConfigurableField`
targets are fixed and carry no further data relevant to the claims). -/
structure MockCoaddConfig where
  makeSkyMap : MakeSkyMapConfig
  coaddName : String
  nObservations : ℕ
  edgeBuffer : ℕ
  deriving Repr

/-- `MockCoaddConfig.setupSkyMapPatches` (src lines 66-76): sets the
nested discrete skymap's `patchInnerDimensions` to
`[patchSize, patchSize]`, its `pixelScale` to the pixel scale in
arcseconds, and its `radiusList` to the single radius
`(0.5 * nPatches - 0.49) * patchSize * pixelScale.asDegrees()`.
The Python defaults are `nPatches=2, patchSize=400,
pixelScale=0.2*lsst.afw.geom.arcseconds`. -/
def MockCoaddConfig.setupSkyMapPatches (self : MockCoaddConfig)
    (nPatches patchSize : ℕ) (pixelScale : Angle) : MockCoaddConfig :=
  let radius : ℚ :=
    ((1 : ℚ)/2 * (nPatches : ℚ) - 49/100) * (patchSize : ℚ) *
      pixelScale.asDegrees
  { self with
      makeSkyMap.skyMap.discrete.patchInnerDimensions :=
        [patchSize, patchSize],
      makeSkyMap.skyMap.discrete.pixelScale := pixelScale.asArcseconds,
      makeSkyMap.skyMap.discrete.radiusList := [radius] }

/-- `MockCoaddConfig.setDefaults` (src lines 78-85): sets the discrete
skymap selection and its base fields, then invokes `setupSkyMapPatches`
with its Python default arguments `(2, 400, 0.2*arcseconds)`. -/
def MockCoaddConfig.setDefaults (self : MockCoaddConfig) : MockCoaddConfig :=
  let self :=
    { self with
        makeSkyMap.skyMap.name := "discrete",
        makeSkyMap.skyMap.discrete.raList := [90],
        makeSkyMap.skyMap.discrete.decList := [0],
        makeSkyMap.skyMap.discrete.patchBorder := 10,
        makeSkyMap.skyMap.discrete.projection := "TAN",
        makeSkyMap.skyMap.discrete.tractOverlap := 0 }
  self.setupSkyMapPatches 2 400 (Angle.scale (1/5) arcsecondsUnit)

end MockCoadd

namespace MockCoadd

/-- The retarget state of a coadd configuration's `select` field. -/
inductive SelectTarget where
  | baseSelectImages : SelectTarget
  | mockSelectImages : SelectTarget
  deriving DecidableEq, Repr

/-- The two external coadd task classes `makeCoaddTask` is invoked
with. -/
inductive CoaddTaskClass where
  | makeCoaddTempExp : CoaddTaskClass
  | assembleCoadd : CoaddTaskClass
  deriving DecidableEq, Repr

/-- The coadd task configuration fields touched by
`MockCoaddTask.makeCoaddTask`. -/
structure CoaddConfig where
  coaddName : String
  selectTarget : SelectTarget
  bgSubtracted : Bool
  desiredFwhm : Option ℚ
  doMatchBackgrounds : Bool
  deriving DecidableEq, Repr

/-- An instantiated coadd task: the class it was constructed from and the
configuration it was constructed with. -/
structure CoaddTask where
  cls : CoaddTaskClass
  config : CoaddConfig
  deriving DecidableEq, Repr

/-- `MockCoaddTask.makeCoaddTask` (src lines 204-215): starts from
`cls.ConfigClass()` (the external class's default configuration, an
abstract parameter here), copies `self.config.coaddName`, retargets
`select` to `MockSelectImagesTask`, then applies the class-specific
settings of the `if cls == ... / elif cls == ...` chain, and returns
`cls(config)`. -/
def makeCoaddTask (defaultConfig : CoaddTaskClass → CoaddConfig)
    (self : MockCoaddConfig) (cls : CoaddTaskClass) : CoaddTask :=
  let config := defaultConfig cls
  let config :=
    { config with
        coaddName := self.coaddName,
        selectTarget := SelectTarget.mockSelectImages }
  let config :=
    if cls = CoaddTaskClass.makeCoaddTempExp then
      { config with bgSubtracted := true, desiredFwhm := none }
    else if cls = CoaddTaskClass.assembleCoadd then
      { config with doMatchBackgrounds := false }
    else config
  ⟨cls, config⟩

/-- The tract information used by the patch iteration: the tract id and
the pair returned by `tractInfo.getNumPatches()`. -/
structure TractInfo where
  id : ℤ
  numPatches : ℕ × ℕ
  deriving DecidableEq, Repr

/-- A butler patch data reference as built by `iterPatchRefs`. -/
structure PatchRef where
  dataset : String
  tract : ℤ
  patch : String
  filter : String
  deriving DecidableEq, Repr

/-- `MockCoaddTask.iterPatchRefs` (src lines 217-226): the generator's
nested loops, `iPatchX` outer over `range(nPatchX)` and `iPatchY` inner
over `range(nPatchY)`, yielding a data reference for dataset
`self.config.coaddName + "Coadd"`, patch string `"%d,%d" % (iPatchX,
iPatchY)` and filter `'r'`, rendered as the list of yielded values. -/
def iterPatchRefs (self : MockCoaddConfig) (tractInfo : TractInfo) :
    List PatchRef :=
  (List.range tractInfo.numPatches.1).flatMap (fun iPatchX =>
    (List.range tractInfo.numPatches.2).map (fun iPatchY =>
      ⟨self.coaddName ++ "Coadd", tractInfo.id,
       toString iPatchX ++ "," ++ toString iPatchY, "r"⟩))

/-- An observable event of `buildCoadd`: a delegated `task.run(patchRef)`
call. -/
inductive CoaddEvent where
  | taskRun (task : CoaddTask) (patchRef : PatchRef) : CoaddEvent
  deriving DecidableEq, Repr

/-- `MockCoaddTask.buildCoadd` (src lines 228-241): constructs the two
delegated tasks via `makeCoaddTask`, then runs the first `for` loop
(`makeCoaddTempExpTask.run` on each patch reference) and afterwards the
second `for` loop (`assembleCoaddTask.run` on each patch reference),
each loop appending its delegated calls to the trace in iteration
order. -/
def buildCoadd (defaultConfig : CoaddTaskClass → CoaddConfig)
    (self : MockCoaddConfig) (tractInfo : TractInfo) : List CoaddEvent :=
  let makeCoaddTempExpTask :=
    makeCoaddTask defaultConfig self CoaddTaskClass.makeCoaddTempExp
  let assembleCoaddTask :=
    makeCoaddTask defaultConfig self CoaddTaskClass.assembleCoadd
  let trace :=
    (iterPatchRefs self tractInfo).foldl
      (fun tr patchRef => tr ++ [CoaddEvent.taskRun makeCoaddTempExpTask patchRef]) []
  (iterPatchRefs self tractInfo).foldl
    (fun tr patchRef => tr ++ [CoaddEvent.taskRun assembleCoaddTask patchRef]) trace

/-- A truth-catalog record: its id and coordinate. -/
structure TruthRecord (Coord : Type) where
  id : ℤ
  coord : Coord

/-- An observation-catalog record: its id, the `ccd` and `visit` integer
fields, and the bounding box, calib, wcs and psf payloads the generated
exposure is initialised from. -/
structure ObsRecord (Coord BBox Calib Wcs Psf : Type) where
  id : ℤ
  ccd : ℤ
  visit : ℤ
  bbox : BBox
  calib : Calib
  wcs : Wcs
  psf : Psf

/-- A mock exposure: the payloads copied from the observation record, the
abstract image plane, and the variance plane modelled by its fill
value. -/
structure Exposure (BBox Calib Wcs Psf Img : Type) where
  bbox : BBox
  calib : Calib
  wcs : Wcs
  psf : Psf
  image : Img
  variance : ℚ

/-- The `lsst.afw.image.ExposureF(bbox)` construction followed by the
`setCalib`/`setWcs`/`setPsf` calls (src lines 174-177): a fresh blank
image with zero-filled variance plane. -/
def mkExposure {Coord BBox Calib Wcs Psf Img : Type} (blank : BBox → Img)
    (obsRecord : ObsRecord Coord BBox Calib Wcs Psf) :
    Exposure BBox Calib Wcs Psf Img :=
  ⟨obsRecord.bbox, obsRecord.calib, obsRecord.wcs, obsRecord.psf,
   blank obsRecord.bbox, 0⟩

/-- A record of the `simsrc` catalog built by `buildInputImages`. -/
structure SimSrcRecord (Coord : Type) where
  coord : Coord
  objectId : ℤ
  exposureId : ℤ
  centroidInBBox : Bool
  partialOverlap : Bool

/-- A `butler.put(exposure, "calexp", ccd=ccd, visit=visit)` persistence
event (src line 190). -/
structure CalexpPut (BBox Calib Wcs Psf Img : Type) where
  exposure : Exposure BBox Calib Wcs Psf Img
  ccd : ℤ
  visit : ℤ

end MockCoadd

namespace MockCoadd

section BuildInputImages

variable {Coord BBox Calib Wcs Psf Img : Type}

/-- The body of the inner `for truthRecord in truthCatalog` loop of
`buildInputImages` (src lines 178-187): run `drawSource` on the current
exposure state and, when the returned status is truthy, append a record
carrying the truth coordinate, the truth id (`objectId`), the
observation id (`exposureId`), the `centroidInBBox` flag
(`obsRecord.contains(coord)`) and the `partialOverlap` flag
(`status == 1`). -/
def drawStep
    (draw : TruthRecord Coord → Exposure BBox Calib Wcs Psf Img → ℕ →
      ℕ × Exposure BBox Calib Wcs Psf Img)
    (containsCoord : ObsRecord Coord BBox Calib Wcs Psf → Coord → Bool)
    (edgeBuffer : ℕ) (obsRecord : ObsRecord Coord BBox Calib Wcs Psf)
    (p : List (SimSrcRecord Coord) × Exposure BBox Calib Wcs Psf Img)
    (truthRecord : TruthRecord Coord) :
    List (SimSrcRecord Coord) × Exposure BBox Calib Wcs Psf Img :=
  let r := draw truthRecord p.2 edgeBuffer
  if r.1 ≠ 0 then
    (p.1 ++ [⟨truthRecord.coord, truthRecord.id, obsRecord.id,
              containsCoord obsRecord truthRecord.coord, r.1 == 1⟩], r.2)
  else (p.1, r.2)

/-- The body of the outer `for obsRecord in obsCatalog` loop of
`buildInputImages` (src lines 170-190): initialise a fresh exposure from
the observation record, run the inner loop, then set the exposure's
variance plane to `1.0` and persist it as a `calexp`. -/
def obsStep
    (draw : TruthRecord Coord → Exposure BBox Calib Wcs Psf Img → ℕ →
      ℕ × Exposure BBox Calib Wcs Psf Img)
    (containsCoord : ObsRecord Coord BBox Calib Wcs Psf → Coord → Bool)
    (blank : BBox → Img) (edgeBuffer : ℕ)
    (truthCatalog : List (TruthRecord Coord))
    (acc : List (SimSrcRecord Coord) × List (CalexpPut BBox Calib Wcs Psf Img))
    (obsRecord : ObsRecord Coord BBox Calib Wcs Psf) :
    List (SimSrcRecord Coord) × List (CalexpPut BBox Calib Wcs Psf Img) :=
  let inner :=
    truthCatalog.foldl (drawStep draw containsCoord edgeBuffer obsRecord)
      (acc.1, mkExposure blank obsRecord)
  (inner.1,
   acc.2 ++ [⟨{ inner.2 with variance := 1 }, obsRecord.ccd,
              obsRecord.visit⟩])

/-- `MockCoaddTask.buildInputImages` (src lines 153-193), with the
external behaviours abstract: `draw` is `self.mockObject.drawSource`
(returning the integer status and the exposure with the source drawn
onto it), `containsCoord` is `obsRecord.contains`, and `blank` builds the
fresh image plane of `ExposureF(bbox)`.  The outer loop runs `obsStep`
over the observation catalog starting from an empty `simsrc` catalog and
no persistence events; returns the `simsrc` catalog and the `calexp`
persistence events. -/
def buildInputImages
    (draw : TruthRecord Coord → Exposure BBox Calib Wcs Psf Img → ℕ →
      ℕ × Exposure BBox Calib Wcs Psf Img)
    (containsCoord : ObsRecord Coord BBox Calib Wcs Psf → Coord → Bool)
    (blank : BBox → Img) (edgeBuffer : ℕ)
    (obsCatalog : List (ObsRecord Coord BBox Calib Wcs Psf))
    (truthCatalog : List (TruthRecord Coord)) :
    List (SimSrcRecord Coord) × List (CalexpPut BBox Calib Wcs Psf Img) :=
  obsCatalog.foldl (obsStep draw containsCoord blank edgeBuffer truthCatalog)
    ([], [])

/-- Specification counterpart of the inner loop of `buildInputImages`,
following the claim's words: threading the exposure through the
successive `drawSource` calls, a `simsrc` record for a truth record is
emitted if and only if its `drawSource` status is truthy, and it carries
the truth coordinate and id, the observation id, `centroidInBBox` iff the
observation record contains the truth coordinate, and `partialOverlap`
iff the status equals 1. -/
def simSrcRecordsSpec
    (draw : TruthRecord Coord → Exposure BBox Calib Wcs Psf Img → ℕ →
      ℕ × Exposure BBox Calib Wcs Psf Img)
    (containsCoord : ObsRecord Coord BBox Calib Wcs Psf → Coord → Bool)
    (edgeBuffer : ℕ) (obsRecord : ObsRecord Coord BBox Calib Wcs Psf) :
    Exposure BBox Calib Wcs Psf Img → List (TruthRecord Coord) →
      List (SimSrcRecord Coord) × Exposure BBox Calib Wcs Psf Img
  | e, [] => ([], e)
  | e, truthRecord :: rest =>
    let r := draw truthRecord e edgeBuffer
    let tail := simSrcRecordsSpec draw containsCoord edgeBuffer obsRecord r.2 rest
    if r.1 ≠ 0 then
      (⟨truthRecord.coord, truthRecord.id, obsRecord.id,
        containsCoord obsRecord truthRecord.coord, r.1 == 1⟩ :: tail.1,
       tail.2)
    else tail

end BuildInputImages

end MockCoadd

namespace MeasurePsfExample

/-- The SourceDetectionTask configuration field the script sets. -/
structure SourceDetectionConfig where
  reEstimateBackground : Bool

/-- The SingleFrameMeasurementTask configuration fields the script sets:
the plugin name set (in insertion order), the circular-aperture-flux
radii, and the psfFlux slot. -/
structure SingleFrameMeasurementConfig where
  pluginNames : List String
  apFluxRadii : List ℚ
  slotPsfFlux : String

/-- The psf-determiner configuration fields the script sets on the
applied determiner instance. -/
structure PsfDeterminerConfig where
  sizeCellX : ℕ
  sizeCellY : ℕ
  spatialOrder : ℕ
  nEigenComponents : ℕ

/-- A constructed SourceDetectionTask: its configuration and the schema
it was constructed over. -/
structure SourceDetectionTask (Schema : Type) where
  config : SourceDetectionConfig
  schema : Schema

/-- A constructed SingleFrameMeasurementTask: the schema it was
constructed over and its configuration. -/
structure SingleFrameMeasurementTask (Schema : Type) where
  schema : Schema
  config : SingleFrameMeasurementConfig

/-- A constructed MeasurePsfTask: its (otherwise default) configuration
and the schema it was constructed over. -/
structure MeasurePsfTask (Schema : Type) where
  schema : Schema

/-- The struct returned by `detectionTask.run`. -/
structure DetectionResult (Sources : Type) where
  sources : Sources

/-- The struct returned by `measurePsfTask.run`: the measured PSF and the
remaining payload (cell set, psf candidates). -/
structure MeasurePsfResult (Psf CellSet : Type) where
  psf : Psf
  cellSet : CellSet

/-- An observable event of the example's `run`: one delegated task
invocation with the arguments it received. -/
inductive RunEvent (Exposure Table Sources : Type) where
  | detectionRun (tab : Table) (exposure : Exposure) (sigma : ℕ) :
      RunEvent Exposure Table Sources
  | measureCall (sources : Sources) (exposure : Exposure) :
      RunEvent Exposure Table Sources
  | measurePsfRun (exposure : Exposure) (sources : Sources) :
      RunEvent Exposure Table Sources

/-- Everything the example's `run` builds: the three constructed tasks,
the mutated determiner-instance configuration, the trace of delegated
task invocations in program order, and the value printed by
`print("psf=", result.psf)`. -/
structure RunOutcome (Exposure Table Schema Sources Psf : Type) where
  detectionTask : SourceDetectionTask Schema
  measureTask : SingleFrameMeasurementTask Schema
  measurePsfTask : MeasurePsfTask Schema
  psfDeterminer : PsfDeterminerConfig
  trace : List (RunEvent Exposure Table Sources)
  printed : Psf

section Run

variable {Exposure Table Schema Sources Psf CellSet : Type}

/-- The `run` function of src/examples/measurePsfTask.py (src lines
59-102), display branch omitted (`display=False`).  External behaviours
are abstract parameters: `loadData` is the exposure `loadData()` returns,
`makeMinimalSchema` is `afwTable.SourceTable.makeMinimalSchema()`,
`makeTable` is `afwTable.SourceTable.make`, `detectionDefaults` /
`measurementDefaults` / `psfDeterminerApplied` are the external default
configurations, and `detectionRun` / `measureFn` / `measurePsfRun` are
the delegated task behaviours (`measureFn` returning the catalog state
after the in-place `measureTask.measure(sources, exposure)`). -/
def run (loadData : Exposure) (makeMinimalSchema : Schema)
    (makeTable : Schema → Table)
    (detectionDefaults : SourceDetectionConfig)
    (measurementDefaults : SingleFrameMeasurementConfig)
    (psfDeterminerApplied : PsfDeterminerConfig)
    (detectionRun : SourceDetectionTask Schema → Table → Exposure → ℕ →
      DetectionResult Sources)
    (measureFn : SingleFrameMeasurementTask Schema → Sources → Exposure →
      Sources)
    (measurePsfRun : MeasurePsfTask Schema → Exposure → Sources →
      MeasurePsfResult Psf CellSet) :
    RunOutcome Exposure Table Schema Sources Psf :=
  let exposure := loadData
  let schema := makeMinimalSchema
  let config := { detectionDefaults with reEstimateBackground := false }
  let detectionTask : SourceDetectionTask Schema := ⟨config, schema⟩
  let config2 :=
    { measurementDefaults with
        pluginNames :=
          ["base_SdssCentroid", "base_SdssShape",
           "base_CircularApertureFlux", "base_PixelFlags",
           "base_GaussianFlux"],
        apFluxRadii := [7, 12],
        slotPsfFlux := "base_CircularApertureFlux_7_0" }
  let measureTask : SingleFrameMeasurementTask Schema := ⟨schema, config2⟩
  let psfDeterminer :=
    { psfDeterminerApplied with
        sizeCellX := 128, sizeCellY := 128, spatialOrder := 1,
        nEigenComponents := 3 }
  let measurePsfTask : MeasurePsfTask Schema := ⟨schema⟩
  let tab := makeTable schema
  let detRes := detectionRun detectionTask tab exposure 2
  let sources := detRes.sources
  let sources2 := measureFn measureTask sources exposure
  let result := measurePsfRun measurePsfTask exposure sources2
  { detectionTask := detectionTask,
    measureTask := measureTask,
    measurePsfTask := measurePsfTask,
    psfDeterminer := psfDeterminer,
    trace :=
      [RunEvent.detectionRun tab exposure 2,
       RunEvent.measureCall sources exposure,
       RunEvent.measurePsfRun exposure sources2],
    printed := result.psf }

end Run

end MeasurePsfExample

/-- C1: the `def` statement of `InjectFakeSourcesTask.__init__` (src
lines 81-82) is not terminated by a colon, so every attempt to parse
or import injectFakeSources.py fails with a syntax error and neither
`InjectFakeSourcesConfig` nor `InjectFakeSourcesTask` is ever bound. -/
theorem injectFakeSources_has_parse_error_and_binds_nothing :
    PyModel.defHeaderTerminated InjectFakeSources.initDefHeader = false ∧
    InjectFakeSources.importModule =
      Except.error PyModel.PyExc.parseError ∧
    InjectFakeSources.boundNames = [] ∧
    InjectFakeSources.boundNames.contains "InjectFakeSourcesConfig" = false ∧
    InjectFakeSources.boundNames.contains "InjectFakeSourcesTask" = false :=
  ⟨by decide, by rfl, by rfl, by decide, by decide⟩

/-- C2: `lsstConfig` (used at src line 34 to define `catalogFileName`) is
never defined or imported — only `pexConfig` is bound as the alias for
`lsst.pex.config` — so evaluating the `InjectFakeSourcesConfig` class
body necessarily raises a `NameError` on `lsstConfig` for every
execution that reaches it. -/
theorem injectFakeSourcesConfig_body_raises_on_lsstConfig :
    PyModel.resolves InjectFakeSources.moduleEnv "lsstConfig" = false ∧
    PyModel.resolves InjectFakeSources.moduleEnv "pexConfig" = true ∧
    InjectFakeSources.evalClassBody InjectFakeSources.moduleEnv
        InjectFakeSources.injectFakeSourcesConfigBody =
      Except.error (PyModel.PyExc.nameError "lsstConfig") :=
  ⟨by decide, by decide, by rfl⟩

/-- C3: `SourceTable` (used at src line 113 in the argument
`icSourceSchema=SourceTable.makeMinimalSchema()`) is never imported, so
for every combination of constructor arguments, constructing an
`InjectFakeSourcesTask` raises a `NameError` on `SourceTable` and the
`calibrate` subtask is never created (no subtask is). -/
theorem injectFakeSourcesTask_init_raises_on_SourceTable
    (butler astromRefObjLoader psfRefObjLoader photoRefObjLoader :
      Option Unit) :
    PyModel.resolves InjectFakeSources.initEnv "SourceTable" = false ∧
    InjectFakeSources.constructTask butler astromRefObjLoader
        psfRefObjLoader photoRefObjLoader =
      ([], some (PyModel.PyExc.nameError "SourceTable")) :=
  ⟨by decide, by rfl⟩

/-- C4: mockCoadd.py never imports `lsst.afw.geom` (read at src line 66),
`lsst.afw.image` (line 174) or `lsst.meas.algorithms` (line 258), and
`long` (lines 104-106) is not a Python 3 builtin; in particular,
constructing a `MockCoaddTask` under Python 3 raises a `NameError` on
`long` for every invocation (after the three subtasks of the earlier
statements were created). -/
theorem mockCoaddTask_unresolved_names (kwds : Option Unit) :
    MockCoadd.resolvesPath MockCoadd.pathEnv "lsst.afw.geom" = false ∧
    PyModel.resolves MockCoadd.initEnv "long" = false ∧
    MockCoadd.resolvesPath MockCoadd.pathEnv "lsst.afw.image" = false ∧
    MockCoadd.resolvesPath MockCoadd.pathEnv "lsst.meas.algorithms" = false ∧
    MockCoadd.constructMockCoaddTask kwds =
      (["makeSkyMap", "mockObject", "mockObservation"],
       some (PyModel.PyExc.nameError "long")) :=
  ⟨by decide, by decide, by decide, by decide, by rfl⟩

/-- C5: the example's `run` wires `SourceDetectionTask`,
`SingleFrameMeasurementTask` and `MeasurePsfTask` over a single shared
schema and invokes them in the fixed order `detectionTask.run` (producing
the source catalog), then `measureTask.measure` on those sources, then
`measurePsfTask.run(exposure, sources)`; the printed PSF is exactly the
`psf` field of the struct returned by `measurePsfTask.run`. -/
theorem measurePsfExample_run_wiring
    {Exposure Table Schema Sources Psf CellSet : Type}
    (loadData : Exposure) (makeMinimalSchema : Schema)
    (makeTable : Schema → Table)
    (detectionDefaults : MeasurePsfExample.SourceDetectionConfig)
    (measurementDefaults : MeasurePsfExample.SingleFrameMeasurementConfig)
    (psfDeterminerApplied : MeasurePsfExample.PsfDeterminerConfig)
    (detectionRun : MeasurePsfExample.SourceDetectionTask Schema → Table →
      Exposure → ℕ → MeasurePsfExample.DetectionResult Sources)
    (measureFn : MeasurePsfExample.SingleFrameMeasurementTask Schema →
      Sources → Exposure → Sources)
    (measurePsfRun : MeasurePsfExample.MeasurePsfTask Schema → Exposure →
      Sources → MeasurePsfExample.MeasurePsfResult Psf CellSet) :
    let outcome := MeasurePsfExample.run loadData makeMinimalSchema
      makeTable detectionDefaults measurementDefaults psfDeterminerApplied
      detectionRun measureFn measurePsfRun
    let tab := makeTable makeMinimalSchema
    let sources :=
      (detectionRun outcome.detectionTask tab loadData 2).sources
    let sources2 := measureFn outcome.measureTask sources loadData
    outcome.trace =
      [MeasurePsfExample.RunEvent.detectionRun tab loadData 2,
       MeasurePsfExample.RunEvent.measureCall sources loadData,
       MeasurePsfExample.RunEvent.measurePsfRun loadData sources2] ∧
    outcome.printed =
      (measurePsfRun outcome.measurePsfTask loadData sources2).psf ∧
    outcome.detectionTask.schema = makeMinimalSchema ∧
    outcome.measureTask.schema = makeMinimalSchema ∧
    outcome.measurePsfTask.schema = makeMinimalSchema :=
  ⟨rfl, rfl, rfl, rfl, rfl⟩

/-- C7: `makeCoaddTask` configures the delegated coadd task
declaratively: for every task class `cls` it copies
`self.config.coaddName` into the new configuration and retargets the
`select` field to `MockSelectImagesTask`; additionally, for
`MakeCoaddTempExpTask` it sets `bgSubtracted` to `True` and
`warpAndPsfMatch.desiredFwhm` to `None`, and for `AssembleCoaddTask` it
sets `doMatchBackgrounds` to `False`; it returns `cls` constructed with
exactly that configuration. -/
theorem makeCoaddTask_declarative_config
    (defaultConfig : MockCoadd.CoaddTaskClass → MockCoadd.CoaddConfig)
    (self : MockCoadd.MockCoaddConfig) :
    (∀ cls : MockCoadd.CoaddTaskClass,
      (MockCoadd.makeCoaddTask defaultConfig self cls).cls = cls ∧
      (MockCoadd.makeCoaddTask defaultConfig self cls).config.coaddName =
        self.coaddName ∧
      (MockCoadd.makeCoaddTask defaultConfig self cls).config.selectTarget =
        MockCoadd.SelectTarget.mockSelectImages) ∧
    (MockCoadd.makeCoaddTask defaultConfig self
        MockCoadd.CoaddTaskClass.makeCoaddTempExp).config.bgSubtracted =
      true ∧
    (MockCoadd.makeCoaddTask defaultConfig self
        MockCoadd.CoaddTaskClass.makeCoaddTempExp).config.desiredFwhm =
      none ∧
    (MockCoadd.makeCoaddTask defaultConfig self
        MockCoadd.CoaddTaskClass.assembleCoadd).config.doMatchBackgrounds =
      false := by
  refine ⟨fun cls => ?_, rfl, rfl, rfl⟩
  cases cls <;> exact ⟨rfl, rfl, rfl⟩

/-- C8: for every `nPatches`, `patchSize` and `pixelScale`,
`setupSkyMapPatches` sets the discrete skymap's `patchInnerDimensions`
to `[patchSize, patchSize]`, its `pixelScale` to the pixel scale in
arcseconds, and its `radiusList` to the single value
`(0.5 * nPatches - 0.49) * patchSize * (pixelScale in degrees)`;
`setDefaults` invokes it with the defaults `nPatches=2, patchSize=400,
pixelScale=0.2` arcseconds. -/
theorem setupSkyMapPatches_fields
    (self : MockCoadd.MockCoaddConfig) (nPatches patchSize : ℕ)
    (pixelScale : MockCoadd.Angle) :
    let d := (self.setupSkyMapPatches nPatches patchSize
      pixelScale).makeSkyMap.skyMap.discrete
    let d0 := self.setDefaults.makeSkyMap.skyMap.discrete
    let scale02 := MockCoadd.Angle.scale (1/5) MockCoadd.arcsecondsUnit
    d.patchInnerDimensions = [patchSize, patchSize] ∧
    d.pixelScale = pixelScale.asArcseconds ∧
    d.radiusList =
      [((1 : ℚ)/2 * (nPatches : ℚ) - 49/100) * (patchSize : ℚ) *
        pixelScale.asDegrees] ∧
    d0.patchInnerDimensions = [400, 400] ∧
    d0.pixelScale = scale02.asArcseconds ∧
    d0.radiusList =
      [((1 : ℚ)/2 * (2 : ℚ) - 49/100) * (400 : ℚ) * scale02.asDegrees] :=
  ⟨rfl, rfl, rfl, rfl, rfl, rfl⟩

namespace MockCoadd

/-- A `for` loop that performs one delegated call per element appends, in
iteration order, one event per element to the trace it starts from. -/
theorem foldl_emit_eq_map {α β : Type} (f : α → β) (l : List α)
    (acc : List β) :
    l.foldl (fun tr a => tr ++ [f a]) acc = acc ++ l.map f := by
  induction l generalizing acc with
  | nil => simp
  | cons a l ih => simp [List.foldl_cons, ih]

end MockCoadd

/-- C6: `buildCoadd` delegates all coaddition work to the external tasks
in a fixed two-phase order: it first calls `makeCoaddTempExpTask.run` on
every patch reference of the tract, and only after completing that full
pass does it call `assembleCoaddTask.run` on every patch reference, in
the same iteration order; its trace consists of nothing but those
delegated calls. -/
theorem buildCoadd_two_phase_delegation
    (defaultConfig : MockCoadd.CoaddTaskClass → MockCoadd.CoaddConfig)
    (self : MockCoadd.MockCoaddConfig) (tractInfo : MockCoadd.TractInfo) :
    MockCoadd.buildCoadd defaultConfig self tractInfo =
      (MockCoadd.iterPatchRefs self tractInfo).map
        (MockCoadd.CoaddEvent.taskRun
          (MockCoadd.makeCoaddTask defaultConfig self
            MockCoadd.CoaddTaskClass.makeCoaddTempExp)) ++
      (MockCoadd.iterPatchRefs self tractInfo).map
        (MockCoadd.CoaddEvent.taskRun
          (MockCoadd.makeCoaddTask defaultConfig self
            MockCoadd.CoaddTaskClass.assembleCoadd)) := by
  simp [MockCoadd.buildCoadd, MockCoadd.foldl_emit_eq_map]

namespace MockCoadd

/-- The length of a flat map over `List.range n` whose blocks all have
length `m`. -/
theorem length_flatMap_range {β : Type} (m : ℕ) (f : ℕ → List β)
    (hm : ∀ i, (f i).length = m) (n : ℕ) :
    ((List.range n).flatMap f).length = n * m := by
  induction n with
  | zero => simp
  | succ n ih =>
    rw [List.range_succ, List.flatMap_append, List.length_append, ih]
    simp [hm, Nat.succ_mul]

/-- Indexing into a flat map over `List.range n` whose blocks all have
length `m`: position `i * m + j` falls in block `i` at offset `j`. -/
theorem getElem?_flatMap_range {β : Type} (m : ℕ) (f : ℕ → List β)
    (hm : ∀ i, (f i).length = m) (n i j : ℕ) (hi : i < n) (hj : j < m) :
    ((List.range n).flatMap f)[i * m + j]? = (f i)[j]? := by
  induction n with
  | zero => omega
  | succ n ih =>
    rw [List.range_succ, List.flatMap_append, List.getElem?_append]
    rw [length_flatMap_range m f hm n]
    by_cases h : i < n
    · have : i * m + j < n * m := by
        calc i * m + j < i * m + m := by omega
        _ = (i + 1) * m := by ring
        _ ≤ n * m := Nat.mul_le_mul_right m h
      simp [this, ih h]
    · have hin : i = n := by omega
      subst hin
      have h1 : ¬ (i * m + j < i * m) := by omega
      simp [h1, hm]

end MockCoadd

/-- C10: `iterPatchRefs` yields exactly `nPatchX * nPatchY` patch data
references for the given tract (where `(nPatchX, nPatchY) =
tractInfo.getNumPatches()`), in the order of `iPatchX` as the outer loop
and `iPatchY` as the inner loop, each with dataset name
`config.coaddName + "Coadd"`, patch string `"iPatchX,iPatchY"` and
filter `'r'`. -/
theorem iterPatchRefs_enumeration (self : MockCoadd.MockCoaddConfig)
    (tractInfo : MockCoadd.TractInfo) :
    (MockCoadd.iterPatchRefs self tractInfo).length =
      tractInfo.numPatches.1 * tractInfo.numPatches.2 ∧
    ∀ iPatchX iPatchY : ℕ, iPatchX < tractInfo.numPatches.1 →
      iPatchY < tractInfo.numPatches.2 →
      (MockCoadd.iterPatchRefs self
          tractInfo)[iPatchX * tractInfo.numPatches.2 + iPatchY]? =
        some ⟨self.coaddName ++ "Coadd", tractInfo.id,
          toString iPatchX ++ "," ++ toString iPatchY, "r"⟩ := by
  constructor
  · exact MockCoadd.length_flatMap_range _ _ (fun i => by simp) _
  · intro iPatchX iPatchY hx hy
    rw [MockCoadd.iterPatchRefs,
      MockCoadd.getElem?_flatMap_range _ _ (fun i => by simp) _ _ _ hx hy]
    simp [hy]

/-- Witness for C10: a 2x3 tract yields the reference for patch `(1, 2)`
at list position `1 * 3 + 2`. -/
theorem iterPatchRefs_enumeration_witness :
    (1 : ℕ) < 2 ∧ (2 : ℕ) < 3 ∧
    (MockCoadd.iterPatchRefs
        ⟨⟨⟨"discrete", ⟨[90], [0], 10, "TAN", 0, [400, 400], 1/5,
          [17/1500]⟩⟩⟩, "deep", 12, 5⟩
        ⟨0, (2, 3)⟩)[1 * 3 + 2]? =
      some ⟨"deepCoadd", 0, "1,2", "r"⟩ := by
  refine ⟨by decide, by decide, ?_⟩
  have h := (iterPatchRefs_enumeration
    ⟨⟨⟨"discrete", ⟨[90], [0], 10, "TAN", 0, [400, 400], 1/5,
      [17/1500]⟩⟩⟩, "deep", 12, 5⟩ ⟨0, (2, 3)⟩).2 1 2 (by decide) (by decide)
  exact h.trans (by decide)

namespace MockCoadd

section BuildInputImagesProofs

variable {Coord BBox Calib Wcs Psf Img : Type}
variable (draw : TruthRecord Coord → Exposure BBox Calib Wcs Psf Img → ℕ →
      ℕ × Exposure BBox Calib Wcs Psf Img)
variable (containsCoord : ObsRecord Coord BBox Calib Wcs Psf → Coord → Bool)
variable (blank : BBox → Img) (edgeBuffer : ℕ)

/-- The inner `for truthRecord in truthCatalog` loop of
`buildInputImages`, started on any accumulated catalog and exposure
state, appends exactly the records of `simSrcRecordsSpec` and ends in
its exposure state. -/
theorem foldl_drawStep_eq_spec
    (obsRecord : ObsRecord Coord BBox Calib Wcs Psf)
    (truthCatalog : List (TruthRecord Coord))
    (e : Exposure BBox Calib Wcs Psf Img)
    (acc : List (SimSrcRecord Coord)) :
    truthCatalog.foldl (drawStep draw containsCoord edgeBuffer obsRecord)
        (acc, e) =
      (acc ++ (simSrcRecordsSpec draw containsCoord edgeBuffer obsRecord e
          truthCatalog).1,
       (simSrcRecordsSpec draw containsCoord edgeBuffer obsRecord e
          truthCatalog).2) := by
  induction truthCatalog generalizing e acc with
  | nil => simp [simSrcRecordsSpec]
  | cons t ts ih =>
    rw [List.foldl_cons]
    by_cases h : (draw t e edgeBuffer).1 = 0
    · simp [drawStep, simSrcRecordsSpec, h, ih]
    · simp [drawStep, simSrcRecordsSpec, h, ih]

/-- The outer `for obsRecord in obsCatalog` loop of `buildInputImages`,
started on any accumulators, appends per observation record the
`simSrcRecordsSpec` records to the shared catalog and one persistence
event whose exposure is the drawn-on exposure with variance `1`. -/
theorem foldl_obsStep_eq_spec (truthCatalog : List (TruthRecord Coord))
    (obsCatalog : List (ObsRecord Coord BBox Calib Wcs Psf))
    (acc1 : List (SimSrcRecord Coord))
    (acc2 : List (CalexpPut BBox Calib Wcs Psf Img)) :
    obsCatalog.foldl
        (obsStep draw containsCoord blank edgeBuffer truthCatalog)
        (acc1, acc2) =
      (acc1 ++ obsCatalog.flatMap (fun o =>
         (simSrcRecordsSpec draw containsCoord edgeBuffer o
           (mkExposure blank o) truthCatalog).1),
       acc2 ++ obsCatalog.map (fun o =>
         ⟨{ (simSrcRecordsSpec draw containsCoord edgeBuffer o
              (mkExposure blank o) truthCatalog).2 with variance := 1 },
          o.ccd, o.visit⟩)) := by
  induction obsCatalog generalizing acc1 acc2 with
  | nil => simp
  | cons o os ih =>
    rw [List.foldl_cons]
    have hinner := foldl_drawStep_eq_spec draw containsCoord edgeBuffer o
      truthCatalog (mkExposure blank o) acc1
    simp only [obsStep, hinner, ih]
    simp [List.append_assoc]

end BuildInputImagesProofs

end MockCoadd

/-- C9: in `buildInputImages`, for every (observation record, truth
record) pair a record goes into the returned `simsrc` catalog if and only
if `drawSource` (run on the exposure state at that point of the loop)
returns a truthy status; every appended record carries the truth record's
coordinate and id (`objectId`), the observation record's id
(`exposureId`), its `partialOverlap` flag set iff the status equals 1,
and its `centroidInBBox` flag set iff the observation record contains the
truth coordinate — all as recorded by `simSrcRecordsSpec` — and every
generated exposure's variance plane is `1.0` when it is persisted. -/
theorem buildInputImages_simsrc_and_variance
    {Coord BBox Calib Wcs Psf Img : Type}
    (draw : MockCoadd.TruthRecord Coord →
      MockCoadd.Exposure BBox Calib Wcs Psf Img → ℕ →
      ℕ × MockCoadd.Exposure BBox Calib Wcs Psf Img)
    (containsCoord : MockCoadd.ObsRecord Coord BBox Calib Wcs Psf →
      Coord → Bool)
    (blank : BBox → Img) (edgeBuffer : ℕ)
    (obsCatalog : List (MockCoadd.ObsRecord Coord BBox Calib Wcs Psf))
    (truthCatalog : List (MockCoadd.TruthRecord Coord)) :
    MockCoadd.buildInputImages draw containsCoord blank edgeBuffer
        obsCatalog truthCatalog =
      (obsCatalog.flatMap (fun o =>
         (MockCoadd.simSrcRecordsSpec draw containsCoord edgeBuffer o
           (MockCoadd.mkExposure blank o) truthCatalog).1),
       obsCatalog.map (fun o =>
         ⟨{ (MockCoadd.simSrcRecordsSpec draw containsCoord edgeBuffer o
              (MockCoadd.mkExposure blank o) truthCatalog).2 with
            variance := 1 }, o.ccd, o.visit⟩)) ∧
    (MockCoadd.buildInputImages draw containsCoord blank edgeBuffer
        obsCatalog truthCatalog).2.map (fun p => p.exposure.variance) =
      List.replicate obsCatalog.length 1 := by
  have h := MockCoadd.foldl_obsStep_eq_spec draw containsCoord blank
    edgeBuffer truthCatalog obsCatalog [] []
  constructor
  · simpa [MockCoadd.buildInputImages] using h
  · rw [MockCoadd.buildInputImages, h]
    simp [List.map_map, Function.comp]
    exact List.map_const' ..
